import Mathlib

/-!
# SnapPDF asynchronous job core — shallow embedding

A shallow embedding, in Lean 4, of the asynchronous job-processing core of
the SnapPDF repository: the job record (`models.py` / `ProcessingJob`), the
status/progress writes and the processing dispatch of
`pdf_processor.py` (`PDFProcessor.update_status`, `update_progress`,
`process_job`, `apply_free_tier_watermark`, `merge_pdfs`, `split_pdfs`),
the queue manager of `queue_manager.py` (`QueueManager.add_job`, `stop`,
`cancel_job`, `_worker` / `_process_job`), and the tier enforcement of the
upload route (`routes.py` / `upload_files`, configured in `app.py`).

Timestamps are modelled as abstract `Nat` clock values supplied by the
caller (`get_now` / `datetime.now` in the source).  File contents are
modelled as an abstract file-system map `FS : String → Option String`;
the watermark transformation itself (ReportLab/PyPDF2 page merging) is an
external collaborator and is modelled by an abstract per-path function
`wm : String → Option String` returning `none` exactly when the
watermarking of that file raises.

A load-bearing fact of the source is embedded throughout: `app` is an
unbound name in `pdf_processor.py` (the module imports only
`from app import db`; the sole `from app import app` is local to
`create_zip_archive`), so every `app.config[...]` reference inside the
operation methods raises `NameError` at runtime.  `merge_pdfs` therefore
always raises (line 159, before its loop, outside any `try`) and
`split_pdfs` always returns the empty list (line 199's `NameError` sits
inside the per-file `try` and aborts every readable input with at least
one page).  The admission surface covers both the tier-checked `/upload`
route and the check-free `/tool/<tool_id>` route (`tool_page_post`).
-/

namespace SnapPDF

/-- `JobStatus` enum of `models.py`. -/
inductive JobStatus where
  | pending
  | processing
  | completed
  | failed
  | cancelled
deriving Repr, DecidableEq

/-- `JobType` enum of `models.py` (all 31 members). -/
inductive JobType where
  | merge
  | split
  | compress
  | ocr
  | protect
  | unlock
  | watermark
  | rotate
  | extract_images
  | convert_word
  | convert_excel
  | remove_pages
  | extract_pages
  | organize
  | scan_to_pdf
  | repair
  | jpg_to_pdf
  | word_to_pdf
  | powerpoint_to_pdf
  | excel_to_pdf
  | html_to_pdf
  | pdf_to_jpg
  | pdf_to_powerpoint
  | pdf_to_excel
  | pdf_to_pdfa
  | add_page_numbers
  | crop
  | edit
  | sign
  | redact
  | compare
deriving Repr, DecidableEq

/-- The `ProcessingJob` record of `models.py`, restricted to the fields the
core reads or writes.  `userPremium` stands for `job.user.is_premium`
(the owning `User` row); `outputFiles`/`inputFiles` stand for the
JSON-encoded path lists; timestamps are abstract clock values. -/
structure Job where
  userPremium : Bool
  jobType : JobType
  inputFiles : List String
  outputFiles : Option (List String) := none
  status : JobStatus := .pending
  progress : Nat := 0
  totalFiles : Nat := 0
  processedFiles : Nat := 0
  errorMessage : Option String := none
  startedAt : Option Nat := none
  completedAt : Option Nat := none
deriving Repr, DecidableEq

/-- `PDFProcessor.update_progress(progress, processed_files=None)`
(pdf_processor.py lines 27–32): writes `progress`, and `processed_files`
when the argument is not `None`, then commits. -/
def update_progress (j : Job) (progress : Nat) (processedFiles : Option Nat) : Job :=
  let j := { j with progress := progress }
  match processedFiles with
  | some n => { j with processedFiles := n }
  | none => j

/-- `PDFProcessor.update_status(status, error_message=None)`
(pdf_processor.py lines 34–43): unconditionally assigns the new status;
stores `error_message` only when the Python value is truthy (so neither
`None` nor the empty string is stored); sets `started_at` on a
`PROCESSING` write and `completed_at` on a terminal write; commits.
There is no check of the job's current status. -/
def update_status (now : Nat) (j : Job) (status : JobStatus)
    (errorMessage : Option String) : Job :=
  let j := { j with status := status }
  let j := match errorMessage with
    | some m => if m = "" then j else { j with errorMessage := some m }
    | none => j
  if status = JobStatus.processing then
    { j with startedAt := some now }
  else if status = JobStatus.completed ∨ status = JobStatus.failed ∨
      status = JobStatus.cancelled then
    { j with completedAt := some now }
  else
    j

/-- `QueueManager.cancel_job(job_id)` (queue_manager.py lines 94–103).
The looked-up record is `none` when `ProcessingJob.query.get` finds no
row.  Returns the boolean result together with the stored record after
the call. -/
def cancel_job (now : Nat) (job? : Option Job) : Bool × Option Job :=
  match job? with
  | some job =>
    if job.status = JobStatus.pending ∨ job.status = JobStatus.processing then
      (true, some { job with status := JobStatus.cancelled, completedAt := some now })
    else
      (false, some job)
  | none => (false, none)

/-- Abstract file system: path to file content (`none` = no such file). -/
abbrev FS : Type := String → Option String

/-- Python's `file_path.lower().endswith('.pdf')` (pdf_processor.py line
121), character-level: lowercase the name and compare its last four
characters with `.pdf`. -/
def lower_ends_with_pdf (s : String) : Bool :=
  (s.data.map Char.toLower).reverse.take 4 = ['f', 'd', 'p', '.']

/-- Watermarking of one path inside the loop body of
`apply_free_tier_watermark` (pdf_processor.py lines 124–153): the
ReportLab/PyPDF2 transformation is abstracted by `wm`; `wm path = some c`
means the pass rewrites the file in place to content `c`, `wm path = none`
means the `try` body raised, in which case the exception is logged and the
file is left as it was. -/
def watermark_one (wm : String → Option String) (fs : FS) (path : String) : FS :=
  match wm path with
  | some c => fun p => if p = path then some c else fs p
  | none => fs

/-- `PDFProcessor.apply_free_tier_watermark(file_paths)` (pdf_processor.py
lines 115–153): for each path, files whose lowercased name does not end in
`.pdf` are skipped (`continue`), otherwise the watermark pass runs under a
per-file `try`/`except` that logs and moves on.  The early return on an
empty `file_paths` coincides with the fold over `[]`. -/
def apply_free_tier_watermark (wm : String → Option String) (fs : FS)
    (file_paths : List String) : FS :=
  file_paths.foldl
    (fun acc p => if lower_ends_with_pdf p then watermark_one wm acc p else acc)
    fs

/-- The outcome of one dispatched operation (`self.merge_pdfs()` etc. in
the `if`/`elif` chain of `process_job`): the operation reads and updates
the job record (progress writes) and either returns the output path list
or raises with a message (`Except.error`). -/
abbrev Op : Type := Job → Job × Except String (List String)

/-- `PDFProcessor.process_job()` (pdf_processor.py lines 45–113).
`op` stands for the branch of the dispatch chain selected by
`self.job.job_type`.  Steps, in source order: write `PROCESSING`
(no check of the current status); read `is_free_user`; run the operation;
on success apply the free-tier watermark when the user is not premium,
store `output_files`, write `COMPLETED`, then write progress 100; on an
exception write `FAILED` with `str(e)` and re-raise (the third component
is the re-raised message, `none` when nothing was raised). -/
def process_job (now : Nat) (wm : String → Option String) (op : Op)
    (j : Job) (fs : FS) : Job × FS × Option String :=
  let j1 := update_status now j JobStatus.processing none
  let is_free_user := !j1.userPremium
  match op j1 with
  | (j2, Except.ok result) =>
    let fs' := if is_free_user then apply_free_tier_watermark wm fs result else fs
    let j3 := { j2 with outputFiles := some result }
    let j4 := update_status now j3 JobStatus.completed none
    let j5 := update_progress j4 100 (some j4.totalFiles)
    (j5, fs', none)
  | (j2, Except.error msg) =>
    let j3 := update_status now j2 JobStatus.failed (some msg)
    (j3, fs, some msg)

/-- One input file as the operations see it: its path and, when PyPDF2 can
open and parse it, its page count; `pages = none` means `open`/`PdfReader`
raises for this path. -/
structure InputFile where
  path : String
  pages : Option Nat
deriving Repr, DecidableEq

/-- The message of the `NameError` raised wherever an operation method of
`pdf_processor.py` evaluates `app.config[...]`: the module imports only
`from app import db` (line 14) and nothing binds `app` at module level —
the sole `from app import app` is local to `create_zip_archive`
(line 1192) — so every `app.config` reference inside the operation
methods raises `NameError: name 'app' is not defined`. -/
def nameErrorApp : String := "name 'app' is not defined"

/-- `PDFProcessor.merge_pdfs()` (pdf_processor.py lines 155–181): it
reads the input list (line 157, valid JSON for any job the routes
create), picks an output name (line 158), and then evaluates
`app.config['PROCESSED_FOLDER']` at line 159 — before the per-file loop
and outside any `try` — where the unbound `app` raises `NameError`.  The
loop, its per-file progress updates and the final
`return [output_path]` are unreachable; the exception propagates to
`process_job`'s handler.  The `inputs` argument mirrors the call shape
but cannot influence the outcome. -/
def merge_pdfs (_inputs : List InputFile) : Op :=
  fun j => (j, Except.error nameErrorApp)

/-- The `for` loop of `PDFProcessor.split_pdfs` (pdf_processor.py lines
188–212), with the unbound-`app` `NameError` accounted for.  Inside the
per-file `try`:
* an unreadable input raises at `open`/`PdfReader` — logged, skipped;
* a readable input with at least one page reaches
  `app.config['PROCESSED_FOLDER']` (line 199) on its first page, raising
  `NameError` inside the `try` — logged, skipped: no output is appended
  and the progress lines (207–208) are never reached;
* a readable input with zero pages runs the empty page loop and then the
  progress update `update_progress(int((i+1)/n*100), i+1)`.
`prog i n` stands for Python's `int(i / n * 100)` computed in IEEE
doubles; the float computation is not modelled, so the value is kept
abstract.  No branch ever appends to `output_files`. -/
def split_loop (prog : Nat → Nat → Nat) (n : Nat) :
    Nat → List InputFile → Job × List String → Job × List String
  | _, [], acc => acc
  | i, f :: rest, (j, outs) =>
    let acc' := match f.pages with
      | some 0 => (update_progress j (prog (i + 1) n) (some (i + 1)), outs)
      | some (_ + 1) => (j, outs)
      | none => (j, outs)
    split_loop prog n (i + 1) rest acc'

/-- `PDFProcessor.split_pdfs()` (pdf_processor.py lines 183–214): runs
the loop starting from the empty output list.  Since no input can
contribute an output (see `split_loop`), it always returns the empty
list; it never raises. -/
def split_pdfs (prog : Nat → Nat → Nat) (inputs : List InputFile) : Op :=
  fun j =>
    let (j', outs) := split_loop prog inputs.length 0 inputs (j, [])
    (j', Except.ok outs)

/-- The job table, keyed by job id (`ProcessingJob.query.get`). -/
abbrev Store : Type := String → Option Job

/-- `QueueManager._process_job(job_id)` (queue_manager.py lines 57–65)
together with `PDFProcessor.__init__` (pdf_processor.py lines 21–25):
the constructor re-reads the record and raises `ValueError` when it is
gone — the surrounding `try`/`except` logs that and leaves everything
untouched; otherwise `process_job` runs on the record as found (no
cancellation check anywhere on this path) and its final state is
committed back; an exception re-raised by `process_job` is caught and
logged here, never propagated to the worker loop. -/
def process_job_store (now : Nat) (wm : String → Option String) (op : Op)
    (store : Store) (fs : FS) (job_id : String) : Store × FS :=
  match store job_id with
  | none => (store, fs)
  | some j =>
    let (j', fs', _raised) := process_job now wm op j fs
    (fun id => if id = job_id then some j' else store id, fs')

/-- The body of `QueueManager._worker` (queue_manager.py lines 46–55),
run over the ids the queue hands out, in dequeue order: each id is
processed exactly once by `_process_job`, whose `except` clause confines
any failure to that id, and the loop moves to the next id regardless of
the outcome.  `ops` gives the dispatched operation of each job id. -/
def worker_run (now : Nat) (wm : String → Option String) (ops : String → Op) :
    List String → Store × FS → Store × FS
  | [], s => s
  | job_id :: rest, (store, fs) =>
    worker_run now wm ops rest (process_job_store now wm (ops job_id) store fs job_id)

/-- `queue.Queue.put` as used by `QueueManager.add_job`: appends at the
tail; the queue is unbounded, so `put` returns at once. -/
def queue_put (q : List String) (job_id : String) : List String := q ++ [job_id]

/-- `queue.Queue.get` as used by `QueueManager._worker`: removes and
returns the head (FIFO); `none` models the `Empty` timeout. -/
def queue_get : List String → Option (String × List String)
  | [] => none
  | job_id :: rest => some (job_id, rest)

/-- Repeatedly `get` until the queue is empty, collecting the ids in the
order workers claim them; `fuel` bounds the iteration (any value at least
the queue length drains it). -/
def drain_queue : Nat → List String → List String
  | 0, _ => []
  | fuel + 1, q =>
    match queue_get q with
    | none => []
    | some (job_id, q') => job_id :: drain_queue fuel q'

/-- The mutable state of `QueueManager` (queue_manager.py lines 14–18):
the job queue, the running flag, and the started worker count. -/
structure QMState where
  job_queue : List String := []
  is_running : Bool := false
  workers : Nat := 0
deriving Repr, DecidableEq

/-- `QueueManager.stop()` (queue_manager.py lines 36–39): clears the
running flag and nothing else — the queue object stays as it is. -/
def qm_stop (s : QMState) : QMState := { s with is_running := false }

/-- `QueueManager.add_job(job_id)` (queue_manager.py lines 41–44): a bare
`self.job_queue.put(job_id)`; it consults no flag, has no failure branch,
and the unbounded `put` never waits. -/
def add_job (s : QMState) (job_id : String) : QMState :=
  { s with job_queue := queue_put s.job_queue job_id }

/-- One uploaded file as `upload_files` examines it: its client-supplied
name, the verdict of `validate_pdf_file` (an external collaborator,
abstracted to a boolean), and its size in bytes. -/
structure UFile where
  name : String
  valid : Bool
  size : Nat
deriving Repr, DecidableEq

/-- `app.config["FREE_USER_FILE_LIMIT"]` (app.py line 51): 5 MB per file. -/
def FREE_USER_FILE_LIMIT : Nat := 5 * 1024 * 1024

/-- `app.config["FREE_USER_BATCH_LIMIT"]` (app.py line 52): 3 files. -/
def FREE_USER_BATCH_LIMIT : Nat := 3

/-- The batch ceiling `upload_files` applies (routes.py line 126): the
configured free limit for non-premium users, the literal 100 for premium. -/
def batch_limit_for (is_premium : Bool) : Nat :=
  if !is_premium then FREE_USER_BATCH_LIMIT else 100

/-- The per-file byte ceiling `upload_files` applies (routes.py line 133):
the configured free limit for non-premium users, the literal
`100 * 1024 * 1024` for premium. -/
def file_limit_for (is_premium : Bool) : Nat :=
  if !is_premium then FREE_USER_FILE_LIMIT else 100 * 1024 * 1024

/-- The first `for` loop of `upload_files` (routes.py lines 135–149):
each file is validated, then its size is measured and compared against
the ceiling; the first offender aborts the request with a 400 before
anything is saved. -/
def check_files (file_limit : Nat) : List UFile → Option String
  | [] => none
  | f :: rest =>
    if !f.valid then some ("File " ++ f.name ++ ": invalid")
    else if f.size > file_limit then some ("File " ++ f.name ++ " exceeds limit")
    else check_files file_limit rest

/-- Result of the `/upload` route: a 400/500 rejection with its message,
or acceptance with the saved files. -/
inductive UploadResult where
  | rejected (msg : String)
  | accepted (files : List UFile)
deriving Repr, DecidableEq

/-- `upload_files()` (routes.py lines 111–193), up to the save loop
(whose I/O errors are outside this model): empty-selection check, the
batch-count check against the tier's batch limit, then the
validation/size loop against the tier's file limit; only when every check
passes are the files saved and the request accepted.  No job is created
here — job creation happens later, in `/process`, which performs no
quota check of its own. -/
def upload_files (is_premium : Bool) (files : List UFile) : UploadResult :=
  if files.isEmpty || files.all (fun f => f.name = "") then
    UploadResult.rejected "No files selected"
  else if files.length > batch_limit_for is_premium then
    UploadResult.rejected "Batch limit exceeded"
  else
    match check_files (file_limit_for is_premium) files with
    | some msg => UploadResult.rejected msg
    | none => UploadResult.accepted files

/-- A POST to the `/tool/<tool_id>` route `tool_page` (routes.py lines
613–720) for a recognized tool.  `none` is a flash-and-redirect refusal:
no files in the request / every file name empty (lines 625–632, 657–659),
or — for the page-selection tools — unparsable page numbers, abstracted
by `settings_ok` (lines 681–687; the refusal branches are independent of
file sizes and counts, as is the catch-all `except` of lines 715–718).
`some (job, s')` means every named file was saved — with NO call to
`validate_pdf_file` and NO tier, size or batch check anywhere on the
route — a `PENDING` job over the saved paths was persisted (lines
692–706), and its id was enqueued via `add_job` (lines 708–710). -/
def tool_page_post (job_id : String) (jt : JobType) (is_premium : Bool)
    (settings_ok : Bool) (files : List UFile) (s : QMState) :
    Option (Job × QMState) :=
  if files.isEmpty || files.all (fun f => f.name = "") then
    none
  else
    let saved := files.filter (fun f => f.name ≠ "")
    if saved.isEmpty then
      none
    else if !settings_ok then
      none
    else
      some ({ userPremium := is_premium,
              jobType := jt,
              inputFiles := saved.map UFile.name,
              totalFiles := saved.length },
            add_job s job_id)

/-! ## Field lemmas for the two status-write primitives -/

theorem update_status_status (now : Nat) (j : Job) (st : JobStatus)
    (msg : Option String) : (update_status now j st msg).status = st := by
  unfold update_status
  cases msg <;> dsimp only <;> split_ifs <;> rfl

theorem update_status_startedAt_processing (now : Nat) (j : Job)
    (msg : Option String) :
    (update_status now j JobStatus.processing msg).startedAt = some now := by
  unfold update_status
  cases msg <;> dsimp only <;> split_ifs <;> first | rfl | simp_all

theorem update_status_startedAt_of_ne (now : Nat) (j : Job) (st : JobStatus)
    (msg : Option String) (h : st ≠ JobStatus.processing) :
    (update_status now j st msg).startedAt = j.startedAt := by
  unfold update_status
  cases msg <;> dsimp only <;> split_ifs <;> first | rfl | simp_all

theorem update_status_outputFiles (now : Nat) (j : Job) (st : JobStatus)
    (msg : Option String) :
    (update_status now j st msg).outputFiles = j.outputFiles := by
  unfold update_status
  cases msg <;> dsimp only <;> split_ifs <;> rfl

theorem update_status_progress (now : Nat) (j : Job) (st : JobStatus)
    (msg : Option String) :
    (update_status now j st msg).progress = j.progress := by
  unfold update_status
  cases msg <;> dsimp only <;> split_ifs <;> rfl

theorem update_status_userPremium (now : Nat) (j : Job) (st : JobStatus)
    (msg : Option String) :
    (update_status now j st msg).userPremium = j.userPremium := by
  unfold update_status
  cases msg <;> dsimp only <;> split_ifs <;> rfl

theorem update_status_errorMessage_some (now : Nat) (j : Job) (st : JobStatus)
    (m : String) (h : m ≠ "") :
    (update_status now j st (some m)).errorMessage = some m := by
  unfold update_status
  dsimp only
  split_ifs <;> simp_all

theorem update_progress_progress (j : Job) (p : Nat) (pf : Option Nat) :
    (update_progress j p pf).progress = p := by
  unfold update_progress
  cases pf <;> rfl

theorem update_progress_status (j : Job) (p : Nat) (pf : Option Nat) :
    (update_progress j p pf).status = j.status := by
  unfold update_progress
  cases pf <;> rfl

theorem update_progress_startedAt (j : Job) (p : Nat) (pf : Option Nat) :
    (update_progress j p pf).startedAt = j.startedAt := by
  unfold update_progress
  cases pf <;> rfl

theorem update_progress_outputFiles (j : Job) (p : Nat) (pf : Option Nat) :
    (update_progress j p pf).outputFiles = j.outputFiles := by
  unfold update_progress
  cases pf <;> rfl

theorem update_progress_errorMessage (j : Job) (p : Nat) (pf : Option Nat) :
    (update_progress j p pf).errorMessage = j.errorMessage := by
  unfold update_progress
  cases pf <;> rfl

/-! ## Reduction lemmas for `process_job` and the watermark pass -/

theorem process_job_ok (now : Nat) (wm : String → Option String) (op : Op)
    (j : Job) (fs : FS) (j2 : Job) (res : List String)
    (hop : op (update_status now j JobStatus.processing none) = (j2, Except.ok res)) :
    process_job now wm op j fs =
      (update_progress
        (update_status now { j2 with outputFiles := some res } JobStatus.completed none)
        100
        (some (update_status now { j2 with outputFiles := some res }
          JobStatus.completed none).totalFiles),
       (if !(update_status now j JobStatus.processing none).userPremium then
          apply_free_tier_watermark wm fs res
        else fs),
       none) := by
  unfold process_job
  dsimp only
  rw [hop]

theorem process_job_error (now : Nat) (wm : String → Option String) (op : Op)
    (j : Job) (fs : FS) (j2 : Job) (msg : String)
    (hop : op (update_status now j JobStatus.processing none) = (j2, Except.error msg)) :
    process_job now wm op j fs =
      (update_status now j2 JobStatus.failed (some msg), fs, some msg) := by
  unfold process_job
  dsimp only
  rw [hop]

theorem apply_free_tier_watermark_cons (wm : String → Option String)
    (fs : FS) (q : String) (rest : List String) :
    apply_free_tier_watermark wm fs (q :: rest) =
      apply_free_tier_watermark wm
        (if lower_ends_with_pdf q then watermark_one wm fs q else fs) rest := by
  simp only [apply_free_tier_watermark, List.foldl_cons]

theorem apply_free_tier_watermark_unchanged (wm : String → Option String)
    (fs : FS) (paths : List String) (p : String)
    (h : lower_ends_with_pdf p = false ∨ wm p = none) :
    apply_free_tier_watermark wm fs paths p = fs p := by
  induction paths generalizing fs with
  | nil => rfl
  | cons q rest ih =>
    rw [apply_free_tier_watermark_cons, ih]
    by_cases hq : lower_ends_with_pdf q
    · rw [if_pos hq]
      unfold watermark_one
      cases hwq : wm q with
      | none => rfl
      | some c =>
        dsimp only
        have hpq : p ≠ q := by
          rcases h with h | h
          · intro he
            rw [he, hq] at h
            exact Bool.noConfusion h
          · intro he
            rw [he, hwq] at h
            exact Option.noConfusion h
        simp [hpq]
    · rw [if_neg hq]

/-! ## Claim theorems -/

/-- A merge job mid-flight: claimed by a worker, currently `PROCESSING`. -/
def sampleProcessingJob : Job :=
  { userPremium := true,
    jobType := JobType.merge,
    inputFiles := ["a.pdf"],
    status := JobStatus.processing,
    totalFiles := 1,
    startedAt := some 4 }

/-- C1, counterexample.  A job that is `PROCESSING` is cancelled
(`cancel_job` succeeds, the record becomes `CANCELLED`), and the worker's
subsequent terminal write — `self.update_status(JobStatus.COMPLETED)` at
pdf_processor.py line 105 — overwrites the terminal `CANCELLED` record to
`COMPLETED`: contrary to the claim, the worker's terminal-state write
performs no "still non-terminal?" check. -/
theorem c1_counterexample :
    (cancel_job 5 (some sampleProcessingJob)).1 = true ∧
    ((cancel_job 5 (some sampleProcessingJob)).2.map Job.status)
      = some JobStatus.cancelled ∧
    ((cancel_job 5 (some sampleProcessingJob)).2.map
        (fun jc => (update_status 6 jc JobStatus.completed none).status))
      = some JobStatus.completed := by
  exact ⟨rfl, rfl, rfl⟩

/-- C1, amended.  `PDFProcessor.update_status` assigns the new status
unconditionally — it never inspects the job's current status — so a
worker's terminal-state write lands regardless of whether the record is
already terminal: a job set to `CANCELLED` while `PROCESSING` is later
overwritten to `COMPLETED` or `FAILED` by the worker that finishes it. -/
theorem c1_status_write_unconditional (now : Nat) (j : Job) (st : JobStatus)
    (msg : Option String) : (update_status now j st msg).status = st := by
  unfold update_status
  cases msg <;> dsimp only <;> split_ifs <;> rfl

/-- C2.  `QueueManager.cancel_job` on an existing job succeeds exactly
when the stored status is `PENDING` or `PROCESSING`, in which case it
stores `CANCELLED` and sets `completed_at`; on a terminal job it returns
`False` and the stored record is unchanged. -/
theorem c2_cancel_iff (now : Nat) (job : Job) :
    ((job.status = JobStatus.pending ∨ job.status = JobStatus.processing) →
      cancel_job now (some job) =
        (true,
         some { job with status := JobStatus.cancelled, completedAt := some now })) ∧
    (¬(job.status = JobStatus.pending ∨ job.status = JobStatus.processing) →
      cancel_job now (some job) = (false, some job)) := by
  constructor <;> intro h <;> simp [cancel_job, h]

/-- A freshly created `PENDING` job, as `/process` persists it. -/
def samplePendingJob : Job :=
  { userPremium := false,
    jobType := JobType.merge,
    inputFiles := ["a.pdf"],
    totalFiles := 1 }

/-- The same job once it has run to completion. -/
def sampleCompletedJob : Job :=
  { samplePendingJob with
    status := JobStatus.completed,
    outputFiles := some ["m.pdf"],
    progress := 100,
    startedAt := some 4,
    completedAt := some 5 }

/-- C2, witness: a `PENDING` job is cancelled, a `COMPLETED` one is not. -/
theorem c2_cancel_iff_witness :
    cancel_job 3 (some samplePendingJob) =
      (true,
       some { samplePendingJob with
              status := JobStatus.cancelled, completedAt := some 3 }) ∧
    cancel_job 3 (some sampleCompletedJob) = (false, some sampleCompletedJob) := by
  refine ⟨(c2_cancel_iff 3 _).1 (Or.inl rfl), (c2_cancel_iff 3 _).2 ?_⟩
  decide

/-- Whatever the operation's outcome, `process_job` has stamped
`started_at` with the claim time, provided the operation itself only
reports progress (as the dispatch branches do) and leaves `started_at`
alone. -/
theorem process_job_startedAt (now : Nat) (wm : String → Option String)
    (op : Op) (j : Job) (fs : FS)
    (hop : ∀ j', ((op j').1).startedAt = j'.startedAt) :
    (process_job now wm op j fs).1.startedAt = some now := by
  cases hres : op (update_status now j JobStatus.processing none) with
  | mk j2 r =>
    have hj2 : j2.startedAt = some now := by
      have h := hop (update_status now j JobStatus.processing none)
      rw [hres] at h
      rw [h, update_status_startedAt_processing]
    cases r with
    | ok result =>
      rw [process_job_ok now wm op j fs j2 result hres]
      dsimp only
      rw [update_progress_startedAt, update_status_startedAt_of_ne]
      · exact hj2
      · intro h
        exact JobStatus.noConfusion h
    | error msg =>
      rw [process_job_error now wm op j fs j2 msg hres]
      dsimp only
      rw [update_status_startedAt_of_ne]
      · exact hj2
      · intro h
        exact JobStatus.noConfusion h

/-- A split job cancelled while it was still `PENDING` (never claimed). -/
def sampleCancelledJob : Job :=
  { userPremium := true,
    jobType := JobType.split,
    inputFiles := ["bad.pdf"],
    totalFiles := 1,
    status := JobStatus.cancelled,
    completedAt := some 2 }

/-- A one-job store holding `sampleCancelledJob` under id `job-1`. -/
def cancelledStore : Store :=
  fun id => if id = "job-1" then some sampleCancelledJob else none

/-- C3, counterexample.  A split job already `CANCELLED` when its id is
dequeued is not skipped: `PDFProcessor.__init__` only checks existence,
and `process_job` immediately writes `PROCESSING` (setting `started_at`)
and runs the operation — `split_pdfs`, which skips its unreadable input
and returns `[]` — so the record ends `COMPLETED`.  The job both
transitions to `PROCESSING` afterward and loses its `CANCELLED` status,
contrary to the claim.  (The progress stand-in is never consulted: the
only input is unreadable.) -/
theorem c3_counterexample :
    (((process_job_store 7 (fun _ => none)
        (split_pdfs (fun _ _ => 0) [⟨"bad.pdf", none⟩])
        cancelledStore (fun _ => none) "job-1").1 "job-1").map Job.status)
      = some JobStatus.completed ∧
    (((process_job_store 7 (fun _ => none)
        (split_pdfs (fun _ _ => 0) [⟨"bad.pdf", none⟩])
        cancelledStore (fun _ => none) "job-1").1 "job-1").map Job.startedAt)
      = some (some 7) := by
  exact ⟨rfl, rfl⟩

/-- C3, amended.  The worker's only re-read guard is existence: when the
record vanished, `PDFProcessor.__init__` raises and `_process_job`'s
`except` leaves store and files untouched.  There is no cancellation
check: for any job present in the store — in particular one already
`CANCELLED` — the worker writes `PROCESSING` first, so `started_at` is
set (the hypothesis on `op` says the dispatched operation only reports
progress, never touching `started_at`, as `split_pdfs` does and every
dispatch branch — all of which only call `update_progress` between the
worker's status writes — does). -/
theorem c3_skip_only_missing (now : Nat) (wm : String → Option String)
    (op : Op) (store : Store) (fs : FS) (job_id : String)
    (hop : ∀ j', ((op j').1).startedAt = j'.startedAt) :
    (store job_id = none →
      process_job_store now wm op store fs job_id = (store, fs)) ∧
    (∀ j, store job_id = some j → j.status = JobStatus.cancelled →
      ((process_job_store now wm op store fs job_id).1 job_id).map Job.startedAt
        = some (some now)) := by
  constructor
  · intro h
    unfold process_job_store
    rw [h]
  · intro j hj _hcancelled
    unfold process_job_store
    rw [hj]
    dsimp only
    rw [if_pos rfl]
    rw [Option.map_some']
    exact congrArg some (process_job_startedAt now wm op j fs hop)

/-- C3, witness: the empty store is left untouched for an unknown id, and
a store holding a cancelled split job under `job-1` has
`started_at := some 7` written to it by the worker. -/
theorem c3_skip_only_missing_witness :
    process_job_store 7 (fun _ => none)
        (split_pdfs (fun _ _ => 0) [⟨"bad.pdf", none⟩])
        (fun _ => none) (fun _ => none) "ghost" = (fun _ => none, fun _ => none) ∧
    ((process_job_store 7 (fun _ => none)
        (split_pdfs (fun _ _ => 0) [⟨"bad.pdf", none⟩])
        cancelledStore (fun _ => none) "job-1").1 "job-1").map Job.startedAt
      = some (some 7) := by
  refine ⟨?_, ?_⟩
  · exact (c3_skip_only_missing 7 (fun _ => none)
      (split_pdfs (fun _ _ => 0) [⟨"bad.pdf", none⟩])
      (fun _ => none) (fun _ => none) "ghost" (fun _ => rfl)).1 rfl
  · exact (c3_skip_only_missing 7 (fun _ => none)
      (split_pdfs (fun _ _ => 0) [⟨"bad.pdf", none⟩])
      cancelledStore (fun _ => none) "job-1" (fun _ => rfl)).2
      sampleCancelledJob rfl rfl

/-- A split job whose single input file cannot be opened. -/
def sampleBadSplitJob : Job :=
  { userPremium := true,
    jobType := JobType.split,
    inputFiles := ["bad.pdf"],
    totalFiles := 1 }

/-- A split job whose single input is a readable zero-page document. -/
def sampleEmptySplitJob : Job :=
  { userPremium := true,
    jobType := JobType.split,
    inputFiles := ["empty.pdf"],
    totalFiles := 1 }

/-- C4, counterexample.  Two concrete runs refute the claim.
First, a split job whose only input fails to parse: the per-file
`except` skips the file, `split_pdfs` returns the empty list, and
`process_job` still marks the job `COMPLETED` — with `output_files`
the empty list, so `COMPLETED` is not entered only on a non-empty output
list.  Second, a split job whose only input is readable with zero pages:
the page loop is empty (so the in-`try` `NameError` of line 199 is never
reached) and the loop's progress line commits
`update_progress(int((1/1)*100), 1)` — exactly 100, the float product
being exact here, matched by the concrete stand-in `fun k n => k*100/n`
at the one point consulted — while the status is still `PROCESSING` (the
`COMPLETED` write comes later), so `progress = 100` does not imply
`status = COMPLETED`. -/
theorem c4_counterexample :
    ((process_job 3 (fun _ => none)
        (split_pdfs (fun _ _ => 0) [⟨"bad.pdf", none⟩])
        sampleBadSplitJob (fun _ => none)).1.status = JobStatus.completed ∧
      (process_job 3 (fun _ => none)
        (split_pdfs (fun _ _ => 0) [⟨"bad.pdf", none⟩])
        sampleBadSplitJob (fun _ => none)).1.outputFiles = some []) ∧
    ((split_pdfs (fun k n => k * 100 / n) [⟨"empty.pdf", some 0⟩]
        (update_status 3 sampleEmptySplitJob JobStatus.processing none)).1.progress
        = 100 ∧
      (split_pdfs (fun k n => k * 100 / n) [⟨"empty.pdf", some 0⟩]
        (update_status 3 sampleEmptySplitJob JobStatus.processing none)).1.status
        = JobStatus.processing) := by
  exact ⟨⟨rfl, rfl⟩, ⟨rfl, rfl⟩⟩

/-- C4, amended.  Whenever the dispatched operation returns an output
list (empty or not), `process_job` marks the job `COMPLETED`, stores that
list in `output_files`, and leaves the final committed progress at 100;
but the output list may be empty, and `progress = 100` can also be
observed while the job is still `PROCESSING`. -/
theorem c4_completed_final_state (now : Nat) (wm : String → Option String)
    (op : Op) (j : Job) (fs : FS) (j2 : Job) (res : List String)
    (hop : op (update_status now j JobStatus.processing none) = (j2, Except.ok res)) :
    (process_job now wm op j fs).1.status = JobStatus.completed ∧
    (process_job now wm op j fs).1.progress = 100 ∧
    (process_job now wm op j fs).1.outputFiles = some res := by
  rw [process_job_ok now wm op j fs j2 res hop]
  dsimp only
  refine ⟨?_, ?_, ?_⟩
  · rw [update_progress_status, update_status_status]
  · rw [update_progress_progress]
  · rw [update_progress_outputFiles, update_status_outputFiles]

/-- C4, witness: a split job over one unreadable input ends `COMPLETED`
with progress 100 and the empty output list stored. -/
theorem c4_completed_final_state_witness :
    (process_job 3 (fun _ => none)
      (split_pdfs (fun _ _ => 0) [⟨"bad.pdf", none⟩])
      sampleBadSplitJob (fun _ => none)).1.status = JobStatus.completed ∧
    (process_job 3 (fun _ => none)
      (split_pdfs (fun _ _ => 0) [⟨"bad.pdf", none⟩])
      sampleBadSplitJob (fun _ => none)).1.progress = 100 ∧
    (process_job 3 (fun _ => none)
      (split_pdfs (fun _ _ => 0) [⟨"bad.pdf", none⟩])
      sampleBadSplitJob (fun _ => none)).1.outputFiles = some [] :=
  c4_completed_final_state 3 (fun _ => none)
    (split_pdfs (fun _ _ => 0) [⟨"bad.pdf", none⟩]) sampleBadSplitJob
    (fun _ => none)
    (update_status 3 sampleBadSplitJob JobStatus.processing none)
    [] rfl

/-- C5, counterexample.  An operation that raises an exception whose
`str()` is empty (e.g. a bare `raise Exception()` inside a transform or a
library it calls): `process_job` calls
`update_status(JobStatus.FAILED, str(e))`, but `update_status` stores the
message only under `if error_message:` — Python truthiness — so the empty
string is discarded and the failed job's `error_message` stays `NULL`:
the worker does not always write `errorDetail`. -/
theorem c5_counterexample :
    (process_job 3 (fun _ => none) (fun j' => (j', Except.error ""))
      samplePendingJob (fun _ => none)).1.status = JobStatus.failed ∧
    (process_job 3 (fun _ => none) (fun j' => (j', Except.error ""))
      samplePendingJob (fun _ => none)).1.errorMessage = none := by
  exact ⟨rfl, rfl⟩

/-- C5, amended.  For every job whose operation raises an error with a
non-empty message, the worker records the message in `error_message`,
transitions the job to `FAILED` (the id is never re-enqueued, so the job
is attempted exactly once), and re-raises; `_process_job` swallows the
re-raise, processing one id never touches any other id's record, and the
worker loop simply moves on to the rest of the queue. -/
theorem c5_failure_contained (now : Nat) (wm : String → Option String)
    (op : Op) (j : Job) (fs : FS) (j2 : Job) (msg : String)
    (hop : op (update_status now j JobStatus.processing none) = (j2, Except.error msg))
    (hmsg : msg ≠ "") :
    (process_job now wm op j fs).1.status = JobStatus.failed ∧
    (process_job now wm op j fs).1.errorMessage = some msg ∧
    (process_job now wm op j fs).2.2 = some msg ∧
    (∀ (store : Store) (job_id other : String), other ≠ job_id →
      (process_job_store now wm op store fs job_id).1 other = store other) ∧
    (∀ (ops : String → Op) (store : Store) (fs' : FS) (a : String)
        (rest : List String),
      worker_run now wm ops (a :: rest) (store, fs') =
        worker_run now wm ops rest (process_job_store now wm (ops a) store fs' a)) := by
  refine ⟨?_, ?_, ?_, ?_, ?_⟩
  · rw [process_job_error now wm op j fs j2 msg hop, update_status_status]
  · rw [process_job_error now wm op j fs j2 msg hop]
    exact update_status_errorMessage_some now j2 JobStatus.failed msg hmsg
  · rw [process_job_error now wm op j fs j2 msg hop]
  · intro store job_id other hne
    unfold process_job_store
    cases store job_id with
    | none => rfl
    | some jj =>
      dsimp only
      rw [if_neg hne]
  · intro ops store fs' a rest
    rfl

/-- C5, witness: an operation raising `"boom"` leaves its job `FAILED`
with the message stored, the re-raise is visible, another record under a
different id is untouched, and the worker loop steps on past the id. -/
theorem c5_failure_contained_witness :
    (process_job 3 (fun _ => none) (fun j' => (j', Except.error "boom"))
      samplePendingJob (fun _ => none)).1.status = JobStatus.failed ∧
    (process_job 3 (fun _ => none) (fun j' => (j', Except.error "boom"))
      samplePendingJob (fun _ => none)).1.errorMessage = some "boom" ∧
    (process_job 3 (fun _ => none) (fun j' => (j', Except.error "boom"))
      samplePendingJob (fun _ => none)).2.2 = some "boom" ∧
    (process_job_store 3 (fun _ => none) (fun j' => (j', Except.error "boom"))
      cancelledStore (fun _ => none) "job-1").1 "job-2" = cancelledStore "job-2" ∧
    worker_run 3 (fun _ => none) (fun _ => fun j' => (j', Except.error "boom"))
        ["job-1"] (cancelledStore, fun _ => none) =
      worker_run 3 (fun _ => none) (fun _ => fun j' => (j', Except.error "boom"))
        [] (process_job_store 3 (fun _ => none)
          (fun j' => (j', Except.error "boom")) cancelledStore (fun _ => none) "job-1") := by
  obtain ⟨h1, h2, h3, h4, h5⟩ :=
    c5_failure_contained 3 (fun _ => none) (fun j' => (j', Except.error "boom"))
      samplePendingJob (fun _ => none)
      (update_status 3 samplePendingJob JobStatus.processing none) "boom" rfl
      (by decide)
  exact ⟨h1, h2, h3, h4 cancelledStore "job-1" "job-2" (by decide),
    h5 (fun _ => fun j' => (j', Except.error "boom")) cancelledStore
      (fun _ => none) "job-1" []⟩

theorem foldl_queue_put (ids : List String) :
    ∀ q, List.foldl queue_put q ids = q ++ ids := by
  induction ids with
  | nil => intro q; simp
  | cons a rest ih =>
    intro q
    simp only [List.foldl_cons, queue_put, ih]
    simp

theorem drain_queue_of_le (q : List String) :
    ∀ fuel, q.length ≤ fuel → drain_queue fuel q = q := by
  induction q with
  | nil =>
    intro fuel _
    cases fuel <;> rfl
  | cons a rest ih =>
    intro fuel h
    cases fuel with
    | zero => simp at h
    | succ f =>
      show a :: drain_queue f rest = a :: rest
      rw [ih f (by simpa using h)]

/-- C6.  The queue is FIFO: enqueueing ids `J1, …, Jn` in order (each
`add_job` a `put` at the tail) and letting workers repeatedly `get`
yields the ids back in exactly the order they were enqueued — each
worker's `get` removes the head, so across all workers jobs are claimed
off the queue in enqueue order; with a single worker `J1` is always
claimed (dequeued and moved `PENDING → PROCESSING`) before `J2`. -/
theorem c6_fifo (ids : List String) :
    drain_queue ids.length (List.foldl queue_put [] ids) = ids := by
  rw [foldl_queue_put ids []]
  exact drain_queue_of_le ids ids.length le_rfl

/-- C7.  `QueueManager.add_job` never blocks and never fails: it is a
total function that appends exactly the given id at the queue's tail
(nothing is dropped), it consults no availability flag, and it behaves
identically after `stop()` — `stop` only clears `is_running`, so the
queue itself never becomes unavailable.  (The claim's "fails only when
the queue is unavailable" is therefore satisfied vacuously: the in-memory
unbounded queue is always available and `put` returns immediately.) -/
theorem c7_add_job_total (s : QMState) (job_id : String) :
    (add_job s job_id).job_queue = s.job_queue ++ [job_id] ∧
    (add_job s job_id).is_running = s.is_running ∧
    (qm_stop s).job_queue = s.job_queue ∧
    add_job (qm_stop s) job_id =
      { job_queue := s.job_queue ++ [job_id], is_running := false,
        workers := s.workers } := by
  exact ⟨rfl, rfl, rfl, rfl⟩

theorem check_files_some_of_exists (limit : Nat) (files : List UFile)
    (h : ∃ f ∈ files, f.size > limit) :
    ∃ m, check_files limit files = some m := by
  induction files with
  | nil => simp at h
  | cons g rest ih =>
    unfold check_files
    split_ifs with hv hs
    · exact ⟨_, rfl⟩
    · exact ⟨_, rfl⟩
    · apply ih
      rcases h with ⟨f, hf, hfs⟩
      rcases List.mem_cons.mp hf with rfl | hfr
      · exact absurd hfs hs
      · exact ⟨f, hfr, hfs⟩

theorem check_files_all_pass (limit : Nat) (files : List UFile)
    (h : check_files limit files = none) :
    ∀ f ∈ files, f.valid = true ∧ f.size ≤ limit := by
  induction files with
  | nil =>
    intro f hf
    simp at hf
  | cons g rest ih =>
    unfold check_files at h
    split_ifs at h with hv hs
    · intro f hf
      rcases List.mem_cons.mp hf with rfl | hfr
      · exact ⟨by simpa using hv, Nat.le_of_not_lt hs⟩
      · exact ih h f hfr

/-- Four small valid files: one more than the free batch ceiling. -/
def bigBatch : List UFile :=
  [⟨"a.pdf", true, 100⟩, ⟨"b.pdf", true, 100⟩,
   ⟨"c.pdf", true, 100⟩, ⟨"d.pdf", true, 100⟩]

/-- C8, counterexample.  Submissions through the `/tool/<tool_id>` route
bypass the ceilings entirely: a free user's single 6 MB file — over the
5 MB `FREE_USER_FILE_LIMIT` — is saved and a job over it is created and
enqueued, and likewise a free user's four-file batch — over the
`FREE_USER_BATCH_LIMIT` of 3 — so an over-ceiling submission is not
always rejected before a job is created or enqueued. -/
theorem c8_counterexample :
    6 * 1024 * 1024 > FREE_USER_FILE_LIMIT ∧
    (tool_page_post "job-9" JobType.compress false true
        [⟨"huge.pdf", true, 6 * 1024 * 1024⟩] {}).map
        (fun r => (r.2.job_queue, r.1.totalFiles))
      = some (["job-9"], 1) ∧
    bigBatch.length > FREE_USER_BATCH_LIMIT ∧
    (tool_page_post "job-10" JobType.merge false true bigBatch {}).map
        (fun r => (r.2.job_queue, r.1.totalFiles))
      = some (["job-10"], 4) := by
  exact ⟨by decide, rfl, by decide, rfl⟩

/-- C8, amended.  Tier ceilings — the configured free values
(3 files / 5 MB per file) for a free account, the literals
100 files / `100*1024*1024` bytes for a premium account — are enforced
synchronously only on the `/upload` route, which rejects an exceeding
submission before anything is saved and admits only submissions within
both ceilings with every file validated (`/process` then creates and
enqueues jobs from `/upload`-admitted files without re-checking); but the
`/tool/<tool_id>` route saves its files and creates and enqueues a job
with no tier, size or batch check at all, so submissions through it
bypass the ceilings. -/
theorem c8_tier_admission (is_premium : Bool) (files : List UFile) :
    (batch_limit_for false = FREE_USER_BATCH_LIMIT ∧
     file_limit_for false = FREE_USER_FILE_LIMIT ∧
     batch_limit_for true = 100 ∧
     file_limit_for true = 100 * 1024 * 1024) ∧
    ((files.length > batch_limit_for is_premium ∨
        ∃ f ∈ files, f.size > file_limit_for is_premium) →
      ∃ msg, upload_files is_premium files = UploadResult.rejected msg) ∧
    (∀ accepted_files,
      upload_files is_premium files = UploadResult.accepted accepted_files →
      files.length ≤ batch_limit_for is_premium ∧
      ∀ f ∈ files, f.valid = true ∧ f.size ≤ file_limit_for is_premium) ∧
    (∀ (job_id : String) (jt : JobType) (s : QMState),
      (files.filter (fun f => f.name ≠ "")).isEmpty = false →
      tool_page_post job_id jt is_premium true files s =
        some ({ userPremium := is_premium,
                jobType := jt,
                inputFiles := (files.filter (fun f => f.name ≠ "")).map UFile.name,
                totalFiles := (files.filter (fun f => f.name ≠ "")).length },
              add_job s job_id)) := by
  refine ⟨⟨rfl, rfl, rfl, rfl⟩, ?_, ?_, ?_⟩
  · intro h
    unfold upload_files
    split_ifs with h1 h2
    · exact ⟨_, rfl⟩
    · exact ⟨_, rfl⟩
    · rcases h with h | h
      · exact absurd h h2
      · obtain ⟨m, hm⟩ := check_files_some_of_exists (file_limit_for is_premium) files h
        rw [hm]
        exact ⟨m, rfl⟩
  · intro accepted_files haf
    unfold upload_files at haf
    split_ifs at haf with h1 h2
    cases hcf : check_files (file_limit_for is_premium) files with
    | some m =>
      rw [hcf] at haf
      exact UploadResult.noConfusion haf
    | none =>
      exact ⟨Nat.le_of_not_lt h2, check_files_all_pass _ _ hcf⟩
  · intro job_id jt s hne
    obtain ⟨a, hamem, haname⟩ :
        ∃ f ∈ files, f.name ≠ "" := by
      cases hfil : files.filter (fun f => f.name ≠ "") with
      | nil =>
        rw [hfil] at hne
        exact absurd hne (by simp)
      | cons a t =>
        have ha : a ∈ files.filter (fun f => f.name ≠ "") := by
          rw [hfil]
          exact List.mem_cons_self a t
        obtain ⟨hmem, hp⟩ := List.mem_filter.mp ha
        exact ⟨a, hmem, by simpa using hp⟩
    have hie : files.isEmpty = false := by
      cases files with
      | nil => exact absurd rfl (List.ne_nil_of_mem hamem)
      | cons x xs => rfl
    have hall : files.all (fun f => f.name = "") = false := by
      cases hv : files.all (fun f => f.name = "") with
      | false => rfl
      | true =>
        have := List.all_eq_true.mp hv a hamem
        exact absurd (by simpa using this) haname
    have h1 : (files.isEmpty || files.all (fun f => f.name = "")) = false := by
      rw [hie, hall]
      rfl
    have hsaved : ¬((files.filter (fun f => f.name ≠ "")).isEmpty = true) := by
      rw [hne]
      decide
    unfold tool_page_post
    rw [h1]
    dsimp only
    rw [if_neg hsaved]
    rfl

/-- C8, witness: a free user's 4-file batch and a free user's 6 MB file
are rejected at `/upload`; a premium user's small file is admitted within
ceilings; and the same free 4-file batch POSTed to a tool page has a job
created and enqueued with no check. -/
theorem c8_tier_admission_witness :
    (∃ msg, upload_files false bigBatch = UploadResult.rejected msg) ∧
    (∃ msg, upload_files false [⟨"big.pdf", true, 6 * 1024 * 1024⟩]
      = UploadResult.rejected msg) ∧
    ([(⟨"ok.pdf", true, 10⟩ : UFile)].length ≤ batch_limit_for true ∧
      ∀ f ∈ [(⟨"ok.pdf", true, 10⟩ : UFile)],
        f.valid = true ∧ f.size ≤ file_limit_for true) ∧
    tool_page_post "job-10" JobType.merge false true bigBatch {} =
      some ({ userPremium := false,
              jobType := JobType.merge,
              inputFiles := (bigBatch.filter (fun f => f.name ≠ "")).map UFile.name,
              totalFiles := (bigBatch.filter (fun f => f.name ≠ "")).length },
            add_job {} "job-10") := by
  refine ⟨?_, ?_, ?_, ?_⟩
  · exact (c8_tier_admission false bigBatch).2.1 (Or.inl (by decide))
  · exact (c8_tier_admission false [⟨"big.pdf", true, 6 * 1024 * 1024⟩]).2.1
      (Or.inr ⟨⟨"big.pdf", true, 6 * 1024 * 1024⟩, by simp, by decide⟩)
  · exact (c8_tier_admission true [⟨"ok.pdf", true, 10⟩]).2.2.1
      [⟨"ok.pdf", true, 10⟩] rfl
  · exact (c8_tier_admission false bigBatch).2.2.2 "job-10" JobType.merge {}
      (by decide)

/-- C9.  For a job owned by a non-premium account whose operation returns
its output list, `process_job` runs `apply_free_tier_watermark` over that
list — after the operation returns and before `output_files` is stored
and the `COMPLETED` write lands (the watermark call at pdf_processor.py
line 102 precedes lines 104–106) — the final file state is exactly the
watermark pass over the outputs; any path not ending in `.pdf`
(case-insensitively) is left unchanged, a file whose watermarking raises
is left as it was, and the job still ends `COMPLETED`. -/
theorem c9_free_tier_watermark (now : Nat) (wm : String → Option String)
    (op : Op) (j : Job) (fs : FS) (j2 : Job) (result : List String)
    (hfree : j.userPremium = false)
    (hop : op (update_status now j JobStatus.processing none)
      = (j2, Except.ok result)) :
    (∀ p, (process_job now wm op j fs).2.1 p
      = apply_free_tier_watermark wm fs result p) ∧
    (process_job now wm op j fs).1.status = JobStatus.completed ∧
    (∀ p, lower_ends_with_pdf p = false ∨ wm p = none →
      (process_job now wm op j fs).2.1 p = fs p) := by
  have hcond : (!(update_status now j JobStatus.processing none).userPremium) = true := by
    rw [update_status_userPremium, hfree]
    rfl
  have hfs : (process_job now wm op j fs).2.1
      = apply_free_tier_watermark wm fs result := by
    rw [process_job_ok now wm op j fs j2 result hop]
    dsimp only
    rw [if_pos hcond]
  refine ⟨fun p => by rw [hfs], ?_, fun p hp => ?_⟩
  · rw [process_job_ok now wm op j fs j2 result hop]
    dsimp only
    rw [update_progress_status, update_status_status]
  · rw [hfs]
    exact apply_free_tier_watermark_unchanged wm fs result p hp

/-- C9, witness.  The dispatched operation slot is instantiated with an
arbitrary registry operation that returns the single output `m.pdf` (the
concrete transforms are external collaborators; the watermark logic under
test is independent of which branch produced the list): the free user's
output `m.pdf` is rewritten in place by the watermark pass, the job ends
`COMPLETED`, and a non-`.pdf` path is untouched. -/
theorem c9_free_tier_watermark_witness :
    (process_job 3 (fun p => if p = "m.pdf" then some "watermarked" else none)
        (fun j' => (j', Except.ok ["m.pdf"])) samplePendingJob
        (fun _ => some "original")).2.1 "m.pdf" = some "watermarked" ∧
    (process_job 3 (fun p => if p = "m.pdf" then some "watermarked" else none)
        (fun j' => (j', Except.ok ["m.pdf"])) samplePendingJob
        (fun _ => some "original")).1.status = JobStatus.completed ∧
    (process_job 3 (fun p => if p = "m.pdf" then some "watermarked" else none)
        (fun j' => (j', Except.ok ["m.pdf"])) samplePendingJob
        (fun _ => some "original")).2.1 "notes.txt" = some "original" := by
  obtain ⟨h1, h2, h3⟩ :=
    c9_free_tier_watermark 3
      (fun p => if p = "m.pdf" then some "watermarked" else none)
      (fun j' => (j', Except.ok ["m.pdf"])) samplePendingJob
      (fun _ => some "original")
      (update_status 3 samplePendingJob JobStatus.processing none)
      ["m.pdf"] rfl rfl
  exact ⟨(h1 "m.pdf").trans (by decide), h2, h3 "notes.txt" (Or.inl (by decide))⟩

theorem split_loop_snd (prog : Nat → Nat → Nat) (inputs : List InputFile) :
    ∀ n i j outs, (split_loop prog n i inputs (j, outs)).2 = outs := by
  induction inputs with
  | nil =>
    intro n i j outs
    rfl
  | cons f rest ih =>
    intro n i j outs
    unfold split_loop
    cases hf : f.pages with
    | none =>
      simp only [hf]
      exact ih n (i + 1) j outs
    | some k =>
      cases k with
      | zero =>
        simp only [hf]
        exact ih n (i + 1) _ outs
      | succ m =>
        simp only [hf]
        exact ih n (i + 1) j outs

theorem split_pdfs_eq (prog : Nat → Nat → Nat) (inputs : List InputFile)
    (j : Job) :
    split_pdfs prog inputs j
      = ((split_loop prog inputs.length 0 inputs (j, [])).1,
         Except.ok (split_loop prog inputs.length 0 inputs (j, [])).2) := by
  unfold split_pdfs
  cases split_loop prog inputs.length 0 inputs (j, []) with
  | mk a b => rfl

/-- C10.  The tolerance the code's structure promises is broken by the
unbound `app`: a merge job — whatever its inputs — raises `NameError` at
pdf_processor.py line 159, before the per-file loop and outside any
`try`, so `process_job` marks it `FAILED` with
`name 'app' is not defined` instead of skipping the bad inputs and
completing; and split's readable inputs hit the same `NameError` at line
199 inside the per-file `try`, so they contribute nothing and
`split_pdfs` always returns the empty list. -/
theorem c10_name_error (now : Nat) (wm : String → Option String)
    (inputs : List InputFile) (j : Job) (fs : FS) (prog : Nat → Nat → Nat) :
    (∀ j', merge_pdfs inputs j' = (j', Except.error nameErrorApp)) ∧
    (process_job now wm (merge_pdfs inputs) j fs).1.status
      = JobStatus.failed ∧
    (process_job now wm (merge_pdfs inputs) j fs).1.errorMessage
      = some nameErrorApp ∧
    (∀ j', (split_pdfs prog inputs j').2 = Except.ok []) := by
  have hm : merge_pdfs inputs (update_status now j JobStatus.processing none)
      = (update_status now j JobStatus.processing none,
         Except.error nameErrorApp) := rfl
  refine ⟨fun j' => rfl, ?_, ?_, fun j' => ?_⟩
  · rw [process_job_error now wm (merge_pdfs inputs) j fs _ _ hm,
      update_status_status]
  · rw [process_job_error now wm (merge_pdfs inputs) j fs _ _ hm]
    exact update_status_errorMessage_some now _ JobStatus.failed nameErrorApp
      (by decide)
  · rw [split_pdfs_eq]
    dsimp only
    rw [split_loop_snd]

end SnapPDF
